import Mathlib

/-
Shallow embedding of the leaf-search execution engine of
`quickwit-search/src/leaf.rs`, together with proofs of the claims about it.

External capabilities (object storage, the tantivy segment library, the
collector module) are modelled as oracles: records of functions whose results
stand for the outcomes of the corresponding external calls. Byte buffers are
`List Nat`, async futures are modelled by their eventual `Except` result, and
the sequential/concurrent structure of the async code is captured by explicit
sequencing of the embedded functions and by event traces.
-/

set_option autoImplicit false

namespace QuickwitLeaf

/-- Byte buffers (`OwnedBytes` in the source) are modelled as lists of bytes. -/
abbrev Bytes := List Nat

/-- Mirrors `SplitIdAndFooterOffsets` from `quickwit_proto`: a split identifier
together with the byte range of its footer inside the backing object. -/
structure SplitIdAndFooterOffsets where
  split_id : String
  split_footer_start : Nat
  split_footer_end : Nat
deriving DecidableEq, Repr

/-- Oracle for the `Storage` trait object: `get_slice` models
`storage.get_slice(path, range)`, returning either the bytes of the requested
range or a storage error message; `uri` models `storage.uri()`. -/
structure Storage where
  uri : String
  get_slice : String → Nat → Nat → Except String Bytes

/-- One storage fetch performed by the footer path: the object name and the
half-open byte range `[start, stop)` requested from storage. -/
structure FetchEvent where
  path : String
  start : Nat
  stop : Nat
deriving DecidableEq, Repr

/-- The process-wide split-footer cache (`MemorySizedCache<String>`), modelled
as an association list from split id to footer bytes. The claims under study
condition on entries not having been evicted, so eviction is not modelled. -/
abbrev FooterCache := List (String × Bytes)

namespace FooterCache

/-- Models `MemorySizedCache::get`. -/
def get (cache : FooterCache) (key : String) : Option Bytes :=
  (cache.find? (fun e => e.1 == key)).map (fun e => e.2)

/-- Models `MemorySizedCache::put`: the new entry replaces any previous entry
for the same key. -/
def put (cache : FooterCache) (key : String) (value : Bytes) : FooterCache :=
  (key, value) :: cache.filter (fun e => e.1 != key)

end FooterCache

/-- Embeds `get_split_footer_from_cache_or_fetch` (leaf.rs:54): look the split
id up in the footer cache; on a hit return the cached bytes; on a miss fetch
the byte range `[split_footer_start, split_footer_end)` of the object
`"<split_id>.split"` from storage, populate the cache and return the bytes.
The result carries the updated cache and the list of storage fetches made. -/
def get_split_footer_from_cache_or_fetch (index_storage : Storage)
    (cache : FooterCache) (split_and_footer_offsets : SplitIdAndFooterOffsets) :
    Except String Bytes × FooterCache × List FetchEvent :=
  match FooterCache.get cache split_and_footer_offsets.split_id with
  | some footer_data => (Except.ok footer_data, cache, [])
  | none =>
    let split_file := split_and_footer_offsets.split_id ++ ".split"
    let fetch : FetchEvent :=
      ⟨split_file, split_and_footer_offsets.split_footer_start,
        split_and_footer_offsets.split_footer_end⟩
    match index_storage.get_slice split_file
        split_and_footer_offsets.split_footer_start
        split_and_footer_offsets.split_footer_end with
    | Except.error e =>
      (Except.error
        ("Failed to fetch hotcache and footer from " ++ index_storage.uri
          ++ " for split `" ++ split_and_footer_offsets.split_id ++ "`: " ++ e),
        cache, [fetch])
    | Except.ok footer_data =>
      (Except.ok footer_data,
        FooterCache.put cache split_and_footer_offsets.split_id footer_data,
        [fetch])

/-- Tantivy terms, as they appear in `query_terms` output: the numeric field id
they belong to plus the term value. -/
structure Term where
  field : Nat
  value : String
deriving DecidableEq, Repr

/-- Oracle for a tantivy inverted index: `warm_postings t pos` is the eventual
result of the async posting-list prefetch `inv_idx.warm_postings(term,
position_needed)`. -/
structure InvertedIndex where
  warm_postings : Term → Bool → Except String Unit

/-- Oracle for a fast-field byte slice: `read_bytes` is the eventual result of
the async column prefetch `fast_field_slice.read_bytes_async()`. -/
structure FastFieldSlice where
  read_bytes : Except String Bytes

/-- Oracle for `segment_reader.fast_fields()`: `fast_field_data f` models
`fast_fields().fast_field_data(f, 0)`. -/
structure FastFieldReaders where
  fast_field_data : Nat → Except String FastFieldSlice

/-- Oracle for a tantivy segment reader: inverted-index access per field and
fast-field access. -/
structure SegmentReader where
  inverted_index : Nat → Except String InvertedIndex
  fast_fields : FastFieldReaders

/-- The per-field schema information the warmup path consults: whether the
field is flagged as a fast (columnar) field. -/
structure FieldEntry where
  is_fast : Bool
deriving DecidableEq, Repr

/-- A tantivy schema: the ordered list of (field name, entry); the numeric
field id is the position in this list. -/
structure Schema where
  fields : List (String × FieldEntry)
deriving DecidableEq, Repr

/-- Models `schema.get_field(name)`: the field id of the named field. -/
def Schema.get_field (s : Schema) (name : String) : Option Nat :=
  s.fields.findIdx? (fun e => e.1 == name)

/-- Models `schema.get_field_entry(field)`. The source only calls it on ids
obtained from `get_field`, which are in range; out-of-range ids default. -/
def Schema.get_field_entry (s : Schema) (f : Nat) : FieldEntry :=
  ((s.fields.get? f).map (fun e => e.2)).getD ⟨false⟩

/-- Oracle for a tantivy searcher: its schema and its segment readers. -/
structure Searcher where
  schema : Schema
  segment_readers : List SegmentReader

/-- A parsed query, abstracted to what warmup consumes: the `query_terms`
output, i.e. the (term, position_needed) pairs in ascending `Term` order as
iterated from the `BTreeMap`. -/
structure Query where
  terms : List (Term × Bool)

/-- Models `futures::future::try_join_all` over already-determined future
results: succeeds with all values iff every future succeeds, otherwise fails
with the error of the first failing future. -/
def tryJoinAll {α : Type} : List (Except String α) → Except String (List α)
  | [] => Except.ok []
  | r :: rs =>
    match r with
    | Except.error e => Except.error e
    | Except.ok a =>
      match tryJoinAll rs with
      | Except.error e => Except.error e
      | Except.ok as => Except.ok (a :: as)

/-- Models the `group_by(|term| term.0.field())` of itertools over the sorted
`BTreeMap` iteration: consecutive terms with equal field are grouped. -/
def groupByField : List (Term × Bool) → List (Nat × List (Term × Bool))
  | [] => []
  | (t, p) :: rest =>
    match groupByField rest with
    | [] => [(t.field, [(t, p)])]
    | (f, g) :: gs =>
      if t.field = f then (f, (t, p) :: g) :: gs
      else (t.field, [(t, p)]) :: (f, g) :: gs

/-- The inner loop of `warm_up_terms` for one field group: for every segment
reader, resolve the inverted index for the field (failing fast on error, as
the `?` operator does) and push one `warm_postings` future per term. -/
def groupTermFutures (readers : List SegmentReader) (field : Nat)
    (ts : List (Term × Bool)) : Except String (List (Except String Unit)) :=
  match readers with
  | [] => Except.ok []
  | r :: rs =>
    match r.inverted_index field with
    | Except.error e => Except.error e
    | Except.ok inv_idx =>
      match groupTermFutures rs field ts with
      | Except.error e => Except.error e
      | Except.ok rest =>
        Except.ok (ts.map (fun tp => inv_idx.warm_postings tp.1 tp.2) ++ rest)

/-- Collects the posting-list prefetch futures of `warm_up_terms` across all
field groups, failing fast if any inverted-index resolution fails. -/
def termFutures (readers : List SegmentReader) :
    List (Nat × List (Term × Bool)) → Except String (List (Except String Unit))
  | [] => Except.ok []
  | (field, ts) :: groups =>
    match groupTermFutures readers field ts with
    | Except.error e => Except.error e
    | Except.ok this =>
      match termFutures readers groups with
      | Except.error e => Except.error e
      | Except.ok rest => Except.ok (this ++ rest)

/-- Embeds `warm_up_terms` (leaf.rs:170): extract the query terms, group them
by field, build one posting-list prefetch per (segment, term) pair, and await
them all via `try_join_all`. -/
def warm_up_terms (searcher : Searcher) (query : Query) : Except String Unit :=
  match termFutures searcher.segment_readers (groupByField query.terms) with
  | Except.error e => Except.error e
  | Except.ok warm_up_futures =>
    match tryJoinAll warm_up_futures with
    | Except.error e => Except.error e
    | Except.ok _ => Except.ok ()

/-- The error message of `warm_up_fastfields` for a name absent from the
schema (the `{:?}` debug format of a string adds quotes). -/
def msgFieldMissing (name : String) : String :=
  "Couldn\x27t get field named \"" ++ name ++ "\" from schema."

/-- The error message of `warm_up_fastfields` for a field that exists but is
not a fast field. -/
def msgFieldNotFast (name : String) : String :=
  "Field \"" ++ name ++ "\" is not a fast field."

/-- The first loop of `warm_up_fastfields` (leaf.rs:140): resolve every
requested fast-field name against the schema, failing on the first name that
is absent or whose field is not flagged fast. -/
def resolve_fast_fields (schema : Schema) :
    List String → Except String (List Nat)
  | [] => Except.ok []
  | fast_field_name :: rest =>
    match schema.get_field fast_field_name with
    | none => Except.error (msgFieldMissing fast_field_name)
    | some fast_field =>
      if (schema.get_field_entry fast_field).is_fast then
        match resolve_fast_fields schema rest with
        | Except.error e => Except.error e
        | Except.ok fields => Except.ok (fast_field :: fields)
      else
        Except.error (msgFieldNotFast fast_field_name)

/-- The inner loop of the second phase of `warm_up_fastfields` for one field:
for every segment reader, resolve the fast-field slice (failing fast, as `?`
does) and push its `read_bytes_async` future. -/
def fieldColumnFutures (readers : List SegmentReader) (field : Nat) :
    Except String (List (Except String Bytes)) :=
  match readers with
  | [] => Except.ok []
  | r :: rs =>
    match r.fast_fields.fast_field_data field with
    | Except.error e => Except.error e
    | Except.ok fast_field_slice =>
      match fieldColumnFutures rs field with
      | Except.error e => Except.error e
      | Except.ok rest => Except.ok (fast_field_slice.read_bytes :: rest)

/-- Collects the column prefetch futures of `warm_up_fastfields` across all
resolved fields. -/
def columnFutures (searcher : Searcher) :
    List Nat → Except String (List (Except String Bytes))
  | [] => Except.ok []
  | field :: fields =>
    match fieldColumnFutures searcher.segment_readers field with
    | Except.error e => Except.error e
    | Except.ok this =>
      match columnFutures searcher fields with
      | Except.error e => Except.error e
      | Except.ok rest => Except.ok (this ++ rest)

/-- Embeds `warm_up_fastfields` (leaf.rs:136): validate every requested field
name against the schema, build one column prefetch per (field, segment) pair,
and await them all via `try_join_all`. -/
def warm_up_fastfields (searcher : Searcher) (fast_field_names : List String) :
    Except String Unit :=
  match resolve_fast_fields searcher.schema fast_field_names with
  | Except.error e => Except.error e
  | Except.ok fast_fields =>
    match columnFutures searcher fast_fields with
    | Except.error e => Except.error e
    | Except.ok warm_up_futures =>
      match tryJoinAll warm_up_futures with
      | Except.error e => Except.error e
      | Except.ok _ => Except.ok ()

/-- Embeds `warmup` (leaf.rs:122): await `warm_up_terms` to completion, and
only if it succeeded, run `warm_up_fastfields` (the two `.await?` in
sequence). -/
def warmup (searcher : Searcher) (query : Query)
    (fast_field_names : List String) : Except String Unit :=
  match warm_up_terms searcher query with
  | Except.error e => Except.error e
  | Except.ok _ => warm_up_fastfields searcher fast_field_names

/-- The posting-list prefetches `warm_up_terms` launches into
`try_join_all`: the collected futures if building them succeeded, none if an
inverted-index resolution failed first (the pushed futures are then dropped
unpolled). -/
def issuedTermPrefetches (searcher : Searcher) (query : Query) :
    List (Except String Unit) :=
  match termFutures searcher.segment_readers (groupByField query.terms) with
  | Except.error _ => []
  | Except.ok futs => futs

/-- The column prefetches `warm_up_fastfields` launches into `try_join_all`
when it runs: none if schema validation or slice resolution failed first. -/
def issuedColumnPrefetches (searcher : Searcher)
    (fast_field_names : List String) : List (Except String Bytes) :=
  match resolve_fast_fields searcher.schema fast_field_names with
  | Except.error _ => []
  | Except.ok fast_fields =>
    match columnFutures searcher fast_fields with
    | Except.error _ => []
    | Except.ok futs => futs

/-- The column prefetches that actually execute during `warmup`: because
`warmup` awaits `warm_up_terms` before calling `warm_up_fastfields`, no column
prefetch executes unless the whole term pass has completed successfully. -/
def executedColumnPrefetches (searcher : Searcher) (query : Query)
    (fast_field_names : List String) : List (Except String Bytes) :=
  match warm_up_terms searcher query with
  | Except.error _ => []
  | Except.ok _ => issuedColumnPrefetches searcher fast_field_names

/-- The search request, opaque to the leaf engine beyond being handed to the
collector and query builders. -/
structure SearchRequest where
  query : String

/-- Mirrors `SplitSearchError` from `quickwit_proto`: the failed split id, a
formatted error description and the retryable flag. -/
structure SplitSearchError where
  split_id : String
  error : String
  retryable_error : Bool
deriving DecidableEq, Repr

/-- Mirrors `LeafSearchResponse` from `quickwit_proto`, restricted to the
fields the claims inspect: the hit payload (abstracted to a hit count) and
the list of per-split failures. -/
structure LeafSearchResponse where
  num_hits : Nat
  failed_splits : List SplitSearchError
deriving DecidableEq, Repr

/-- The crate error type `SearchError` (defined outside `src`):
`internalError` mirrors `SearchError::InternalError`, and `fromError` stands
for every error converted into `SearchError` through its `From` instances. -/
inductive SearchError where
  | internalError (msg : String)
  | fromError (msg : String)
deriving DecidableEq, Repr

/-- Models `format!("{:?}", err)` on a `SearchError`; the exact Debug shape
lives outside `src`, so any formatting carrying the message stands in. -/
def SearchError.debugString : SearchError → String
  | SearchError.internalError msg => "InternalError(\"" ++ msg ++ "\")"
  | SearchError.fromError msg => "Error(\"" ++ msg ++ "\")"

/-- A tantivy index handle, abstracted to the schema the executor reads. -/
structure Index where
  schema : Schema

/-- The collector built by `make_collector_for_split`, abstracted to the fast
field names it declares for warmup (`HashSet<String>` as a list). -/
structure Collector where
  fast_field_names : List String

/-- Oracle for the `IndexConfig` trait object: `query` models
`index_config.query(split_schema, search_request)`. -/
structure IndexConfig where
  query : Schema → SearchRequest → Except String Query

/-- Outcome of the CPU-bound `searcher.search(...)` handed to
`qspawn_blocking`: the task either panicked (a `JoinError`) or finished with
the tantivy search result. -/
inductive SearchOutcome where
  | panicked
  | finished (r : Except String LeafSearchResponse)

/-- Oracles for one split execution: the result of `open_index` (whose bundle
and directory layers live outside `src`), of `make_collector_for_split` (in
`crate::collector`, outside `src`), of building the index reader, and of the
CPU-bound search task. -/
structure SplitExecEnv where
  open_result : Except String Index
  make_collector : String → SearchRequest → Schema → Collector
  reader_result : Index → Except String Searcher
  search_outcome : SearchOutcome

/-- Observable events of one split execution, used to state the lifetime of
the memory reservation (`memory_cushion`): its acquisition and release, the
completion of `open_index` and of `warmup`, and the start of the CPU-bound
execution. An error exit drops the reservation at scope exit, which the
embedding records as a `releaseReservation` event on that path. -/
inductive Event where
  | acquireReservation
  | releaseReservation
  | openIndexDone
  | warmupDone
  | execStart
deriving DecidableEq, Repr

/-- Embeds `leaf_search_single_split` (leaf.rs:194): acquire the memory
cushion, open the index, build the collector and the query, build the reader,
warm up, drop the cushion, then run the CPU-bound search, mapping a panic of
that task to `SearchError::InternalError` naming the split. Returns the
result together with the event trace of the execution. -/
def leaf_search_single_split (search_request : SearchRequest) (env : SplitExecEnv)
    (split : SplitIdAndFooterOffsets) (index_config : IndexConfig) :
    Except SearchError LeafSearchResponse × List Event :=
  let split_id := split.split_id
  match env.open_result with
  | Except.error e =>
    (Except.error (SearchError.fromError e),
      [Event.acquireReservation, Event.releaseReservation])
  | Except.ok index =>
    let split_schema := index.schema
    let quickwit_collector := env.make_collector split_id search_request split_schema
    match index_config.query split_schema search_request with
    | Except.error e =>
      (Except.error (SearchError.fromError e),
        [Event.acquireReservation, Event.openIndexDone, Event.releaseReservation])
    | Except.ok query =>
      match env.reader_result index with
      | Except.error e =>
        (Except.error (SearchError.fromError e),
          [Event.acquireReservation, Event.openIndexDone, Event.releaseReservation])
      | Except.ok searcher =>
        match warmup searcher query quickwit_collector.fast_field_names with
        | Except.error e =>
          (Except.error (SearchError.fromError e),
            [Event.acquireReservation, Event.openIndexDone, Event.releaseReservation])
        | Except.ok _ =>
          let tr := [Event.acquireReservation, Event.openIndexDone, Event.warmupDone,
            Event.releaseReservation, Event.execStart]
          match env.search_outcome with
          | SearchOutcome.panicked =>
            (Except.error (SearchError.internalError
              ("Leaf search panicked. split=" ++ split_id)), tr)
          | SearchOutcome.finished (Except.error e) =>
            (Except.error (SearchError.fromError e), tr)
          | SearchOutcome.finished (Except.ok leaf_search_response) =>
            (Except.ok leaf_search_response, tr)

/-- The event trace of one split execution. -/
def execTrace (search_request : SearchRequest) (env : SplitExecEnv)
    (split : SplitIdAndFooterOffsets) (index_config : IndexConfig) : List Event :=
  (leaf_search_single_split search_request env split index_config).2

/-- Outcome of the merge step run on `spawn_blocking`
(`merge_collector.merge_fruits(...)`, in `crate::collector`, outside `src`):
the blocking task either panicked (its `JoinError` is given the context
message) or finished with the merge result. -/
inductive MergeOutcome where
  | panicked
  | finished (r : Except String LeafSearchResponse)

/-- Embeds `leaf_search` (leaf.rs:273): run one split execution per split,
partition the outcomes into responses and (split id, error) pairs, merge the
responses, and extend the merged response's failure list with one retryable
`SplitSearchError` per failed split. -/
def leaf_search (request : SearchRequest)
    (envs : SplitIdAndFooterOffsets → SplitExecEnv)
    (splits : List SplitIdAndFooterOffsets) (index_config : IndexConfig)
    (merge_fruits : List LeafSearchResponse → MergeOutcome) :
    Except SearchError LeafSearchResponse :=
  let split_search_results : List (Sum LeafSearchResponse (String × SearchError)) :=
    splits.map (fun split =>
      match (leaf_search_single_split request (envs split) split index_config).1 with
      | Except.ok split_search_resp => Sum.inl split_search_resp
      | Except.error err => Sum.inr (split.split_id, err))
  let split_search_responses : List LeafSearchResponse :=
    split_search_results.filterMap (fun r =>
      match r with
      | Sum.inl resp => some resp
      | Sum.inr _ => none)
  let errors : List (String × SearchError) :=
    split_search_results.filterMap (fun r =>
      match r with
      | Sum.inl _ => none
      | Sum.inr pr => some pr)
  match merge_fruits split_search_responses with
  | MergeOutcome.panicked =>
    Except.error (SearchError.fromError "Failed to merge split search responses.")
  | MergeOutcome.finished (Except.error e) => Except.error (SearchError.fromError e)
  | MergeOutcome.finished (Except.ok merged) =>
    Except.ok { merged with
      failed_splits := merged.failed_splits ++ errors.map (fun pr =>
        { split_id := pr.1, error := SearchError.debugString pr.2,
          retryable_error := true }) }

/-- The per-split responses that succeeded, in split order: the left side of
the partition inside `leaf_search`. -/
def leafSuccesses (request : SearchRequest)
    (envs : SplitIdAndFooterOffsets → SplitExecEnv)
    (splits : List SplitIdAndFooterOffsets) (index_config : IndexConfig) :
    List LeafSearchResponse :=
  splits.filterMap (fun split =>
    match (leaf_search_single_split request (envs split) split index_config).1 with
    | Except.ok resp => some resp
    | Except.error _ => none)

/-- The (split id, error) pairs of the executions that failed, in split
order: the right side of the partition inside `leaf_search`. -/
def leafFailures (request : SearchRequest)
    (envs : SplitIdAndFooterOffsets → SplitExecEnv)
    (splits : List SplitIdAndFooterOffsets) (index_config : IndexConfig) :
    List (String × SearchError) :=
  splits.filterMap (fun split =>
    match (leaf_search_single_split request (envs split) split index_config).1 with
    | Except.ok _ => none
    | Except.error err => some (split.split_id, err))

/-- Concrete storage whose every range read succeeds, for witnesses. -/
def storageOk : Storage :=
  ⟨"ram:///indexes/idx", fun _ start stop => Except.ok ((List.range stop).drop start)⟩

/-- Concrete storage whose every range read fails, for witnesses. -/
def storageDown : Storage :=
  ⟨"s3://bucket/idx", fun _ _ _ => Except.error "object not found"⟩

/-- Concrete split descriptor for witnesses. -/
def split1 : SplitIdAndFooterOffsets := ⟨"s1", 10, 14⟩

/-- Second descriptor sharing the split id of `split1` but with different
footer offsets, for the cache-keying witness. -/
def split1Alt : SplitIdAndFooterOffsets := ⟨"s1", 2, 5⟩

/-- Concrete cache already holding a footer for split `s1`, for witnesses. -/
def cacheWithS1 : FooterCache := [("s1", [7, 7])]

/-- Concrete inverted index whose posting prefetch fails, for witnesses. -/
def invFail : InvertedIndex := ⟨fun _ _ => Except.error "posting fetch failed"⟩

/-- Concrete inverted index whose posting prefetch succeeds, for witnesses. -/
def invOk : InvertedIndex := ⟨fun _ _ => Except.ok ()⟩

/-- Concrete fast-field slice whose prefetch succeeds, for witnesses. -/
def sliceOk : FastFieldSlice := ⟨Except.ok [1, 2, 3]⟩

/-- Concrete segment reader whose posting prefetches fail but whose column
prefetches succeed, for witnesses. -/
def segFailTerms : SegmentReader :=
  ⟨fun _ => Except.ok invFail, ⟨fun _ => Except.ok sliceOk⟩⟩

/-- Concrete segment reader whose prefetches all succeed, for witnesses. -/
def segOk : SegmentReader :=
  ⟨fun _ => Except.ok invOk, ⟨fun _ => Except.ok sliceOk⟩⟩

/-- Concrete schema: field `f` is fast, field `g` exists but is not fast. -/
def schemaFG : Schema := ⟨[("f", ⟨true⟩), ("g", ⟨false⟩)]⟩

/-- Concrete searcher whose term prefetches fail, for the C3 counterexample. -/
def searcherFailTerms : Searcher := ⟨schemaFG, [segFailTerms]⟩

/-- Concrete searcher whose prefetches all succeed, for witnesses. -/
def searcherOk : Searcher := ⟨schemaFG, [segOk]⟩

/-- Concrete one-term query on field 0, for witnesses. -/
def queryT : Query := ⟨[(⟨0, "hello"⟩, false)]⟩

/-- Concrete query with no terms, for witnesses. -/
def emptyQuery : Query := ⟨[]⟩

/-- Concrete search request, for witnesses. -/
def requestC : SearchRequest := ⟨"body:hello"⟩

/-- Concrete index handle over the `f`/`g` schema, for witnesses. -/
def indexC : Index := ⟨schemaFG⟩

/-- Concrete index configuration whose query build always succeeds. -/
def cfgC : IndexConfig := ⟨fun _ _ => Except.ok queryT⟩

/-- Concrete successful response with 5 hits, for witnesses. -/
def respA : LeafSearchResponse := ⟨5, []⟩

/-- Concrete successful response with 3 hits, for witnesses. -/
def respB : LeafSearchResponse := ⟨3, []⟩

/-- Concrete environment in which every phase succeeds and the search
finishes with `respA`. -/
def envOkA : SplitExecEnv :=
  ⟨Except.ok indexC, fun _ _ _ => ⟨["f"]⟩, fun _ => Except.ok searcherOk,
    SearchOutcome.finished (Except.ok respA)⟩

/-- Concrete environment in which every phase succeeds and the search
finishes with `respB`. -/
def envOkB : SplitExecEnv :=
  ⟨Except.ok indexC, fun _ _ _ => ⟨["f"]⟩, fun _ => Except.ok searcherOk,
    SearchOutcome.finished (Except.ok respB)⟩

/-- Concrete environment in which every phase succeeds but the CPU-bound
search task panics. -/
def envPanic : SplitExecEnv :=
  ⟨Except.ok indexC, fun _ _ _ => ⟨["f"]⟩, fun _ => Except.ok searcherOk,
    SearchOutcome.panicked⟩

/-- Concrete environment in which `open_index` fails. -/
def envOpenFail : SplitExecEnv :=
  ⟨Except.error "split fetch failed", fun _ _ _ => ⟨[]⟩,
    fun _ => Except.ok searcherOk, SearchOutcome.panicked⟩

/-- Concrete second and third split descriptors, for fan-out witnesses. -/
def split2 : SplitIdAndFooterOffsets := ⟨"s2", 0, 4⟩

/-- Concrete third split descriptor whose execution is made to fail. -/
def split3 : SplitIdAndFooterOffsets := ⟨"s3", 0, 4⟩

/-- Concrete environment assignment: split `s2` succeeds with `respB`, split
`s3` fails at open, every other split succeeds with `respA`. -/
def envsC : SplitIdAndFooterOffsets → SplitExecEnv := fun s =>
  if s.split_id = "s3" then envOpenFail
  else if s.split_id = "s2" then envOkB
  else envOkA

/-- Concrete merge oracle: sums the hit counts and reports no failures of its
own, as `merge_fruits` over clean partial responses does. -/
def mergeSum : List LeafSearchResponse → MergeOutcome := fun rs =>
  MergeOutcome.finished (Except.ok ⟨(rs.map (fun r => r.num_hits)).sum, []⟩)

/- ----------------------------------------------------------------- -/
/- Theorems -/
/- ----------------------------------------------------------------- -/

theorem FooterCache.get_put_same (cache : FooterCache) (key : String) (value : Bytes) :
    FooterCache.get (FooterCache.put cache key value) key = some value := by
  simp [FooterCache.get, FooterCache.put, List.find?]

/-- Claim C4: once the footer for a split id sits in the footer cache (and has
not been evicted), a lookup through `get_split_footer_from_cache_or_fetch`
returns the cached bytes and performs no storage fetch (first conjunct); and a
first successful fetch does populate the cache with the fetched bytes (second
conjunct). -/
theorem get_split_footer_cached_no_fetch (storage : Storage) (cache : FooterCache)
    (s : SplitIdAndFooterOffsets) :
    (∀ fd, FooterCache.get cache s.split_id = some fd →
      get_split_footer_from_cache_or_fetch storage cache s = (Except.ok fd, cache, [])) ∧
    (∀ b, FooterCache.get cache s.split_id = none →
      storage.get_slice (s.split_id ++ ".split") s.split_footer_start s.split_footer_end
        = Except.ok b →
      FooterCache.get (get_split_footer_from_cache_or_fetch storage cache s).2.1 s.split_id
        = some b) := by
  constructor
  · intro fd hget
    simp [get_split_footer_from_cache_or_fetch, hget]
  · intro b hget hslice
    simp [get_split_footer_from_cache_or_fetch, hget, hslice, FooterCache.get_put_same]

theorem get_split_footer_cached_no_fetch_witness :
    get_split_footer_from_cache_or_fetch storageOk cacheWithS1 split1
      = (Except.ok [7, 7], cacheWithS1, []) :=
  (get_split_footer_cached_no_fetch storageOk cacheWithS1 split1).1 [7, 7] rfl

/-- Claim C9: on a footer-cache miss, exactly one storage fetch is issued, for
object `"<split_id>.split"` over the byte range
`[split_footer_start, split_footer_end)`; and if the range read fails, the
resulting error message contains both the storage URI and the split id. -/
theorem get_split_footer_miss_fetch (storage : Storage) (cache : FooterCache)
    (s : SplitIdAndFooterOffsets)
    (hmiss : FooterCache.get cache s.split_id = none) :
    (get_split_footer_from_cache_or_fetch storage cache s).2.2
      = [⟨s.split_id ++ ".split", s.split_footer_start, s.split_footer_end⟩] ∧
    (∀ e, storage.get_slice (s.split_id ++ ".split") s.split_footer_start s.split_footer_end
        = Except.error e →
      ∃ msg, (get_split_footer_from_cache_or_fetch storage cache s).1 = Except.error msg ∧
        (∃ p q, msg = p ++ storage.uri ++ q) ∧ (∃ p q, msg = p ++ s.split_id ++ q)) := by
  constructor
  · cases hslice : storage.get_slice (s.split_id ++ ".split")
      s.split_footer_start s.split_footer_end <;>
      simp [get_split_footer_from_cache_or_fetch, hmiss, hslice]
  · intro e hslice
    refine ⟨"Failed to fetch hotcache and footer from " ++ storage.uri
        ++ " for split `" ++ s.split_id ++ "`: " ++ e, ?_, ?_, ?_⟩
    · simp [get_split_footer_from_cache_or_fetch, hmiss, hslice]
    · exact ⟨"Failed to fetch hotcache and footer from ",
        " for split `" ++ s.split_id ++ "`: " ++ e, by simp [String.append_assoc]⟩
    · exact ⟨"Failed to fetch hotcache and footer from " ++ storage.uri ++ " for split `",
        "`: " ++ e, by simp [String.append_assoc]⟩

theorem get_split_footer_miss_fetch_witness :
    (get_split_footer_from_cache_or_fetch storageDown [] split1).2.2
        = [⟨"s1.split", 10, 14⟩] ∧
      ∃ msg, (get_split_footer_from_cache_or_fetch storageDown [] split1).1
          = Except.error msg ∧
        (∃ p q, msg = p ++ storageDown.uri ++ q) ∧ (∃ p q, msg = p ++ "s1" ++ q) :=
  ⟨(get_split_footer_miss_fetch storageDown [] split1 rfl).1,
    (get_split_footer_miss_fetch storageDown [] split1 rfl).2 "object not found" rfl⟩

/-- Claim C10: the footer cache is keyed solely by the split id. After a first
fetch for a descriptor of split `s1`, a lookup with any second descriptor
sharing the split id but carrying different footer offsets hits the cache,
issues no fetch, and returns the bytes fetched for the first descriptor. -/
theorem footer_cache_keyed_by_split_id (storage : Storage) (cache : FooterCache)
    (s1 s2 : SplitIdAndFooterOffsets) (b1 : Bytes)
    (hid : s2.split_id = s1.split_id)
    (hmiss : FooterCache.get cache s1.split_id = none)
    (hslice : storage.get_slice (s1.split_id ++ ".split")
      s1.split_footer_start s1.split_footer_end = Except.ok b1) :
    (get_split_footer_from_cache_or_fetch storage cache s1).1 = Except.ok b1 ∧
    get_split_footer_from_cache_or_fetch storage
        (get_split_footer_from_cache_or_fetch storage cache s1).2.1 s2
      = (Except.ok b1, (get_split_footer_from_cache_or_fetch storage cache s1).2.1, []) := by
  have hfst : get_split_footer_from_cache_or_fetch storage cache s1
      = (Except.ok b1, FooterCache.put cache s1.split_id b1,
          [⟨s1.split_id ++ ".split", s1.split_footer_start, s1.split_footer_end⟩]) := by
    simp [get_split_footer_from_cache_or_fetch, hmiss, hslice]
  refine ⟨by simp [hfst], ?_⟩
  rw [hfst]
  simp [get_split_footer_from_cache_or_fetch, hid, FooterCache.get_put_same]

theorem footer_cache_keyed_by_split_id_witness :
    (get_split_footer_from_cache_or_fetch storageOk [] split1).1
        = Except.ok [10, 11, 12, 13] ∧
      get_split_footer_from_cache_or_fetch storageOk
          (get_split_footer_from_cache_or_fetch storageOk [] split1).2.1 split1Alt
        = (Except.ok [10, 11, 12, 13],
            (get_split_footer_from_cache_or_fetch storageOk [] split1).2.1, []) :=
  footer_cache_keyed_by_split_id storageOk [] split1 split1Alt [10, 11, 12, 13]
    rfl rfl rfl

theorem tryJoinAll_ok_iff {α : Type} (rs : List (Except String α)) :
    (∃ l, tryJoinAll rs = Except.ok l) ↔ ∀ r ∈ rs, ∃ a, r = Except.ok a := by
  induction rs with
  | nil => simp [tryJoinAll]
  | cons r rs ih =>
    constructor
    · rintro ⟨l, hl⟩ r' hr'
      cases r with
      | error e => simp [tryJoinAll] at hl
      | ok a =>
        cases htl : tryJoinAll rs with
        | error e => simp [tryJoinAll, htl] at hl
        | ok as =>
          rcases List.mem_cons.mp hr' with heq | hmem
          · exact ⟨a, heq⟩
          · exact ih.mp ⟨as, htl⟩ r' hmem
    · intro h
      obtain ⟨a, ha⟩ := h r (List.mem_cons_self r rs)
      obtain ⟨l, hl⟩ := ih.mpr (fun r' hr' => h r' (List.mem_cons_of_mem r hr'))
      exact ⟨a :: l, by simp [ha, tryJoinAll, hl]⟩

theorem tryJoinAll_error_of_mem {α : Type} (rs : List (Except String α))
    (r : Except String α) (hr : r ∈ rs) (e : String) (he : r = Except.error e) :
    ∃ e2, tryJoinAll rs = Except.error e2 := by
  cases h : tryJoinAll rs with
  | error e2 => exact ⟨e2, rfl⟩
  | ok l =>
    obtain ⟨a, ha⟩ := (tryJoinAll_ok_iff rs).mp ⟨l, h⟩ r hr
    rw [he] at ha
    cases ha

/-- Claim C3 counterexample: at a concrete input whose single posting-list
prefetch fails and whose column pass has one prefetch to perform, the term
pass fails and no column prefetch is ever executed, although the column pass
had a prefetch ready to issue. Under concurrent passes the column prefetch
would have started without waiting for the term pass; in the code it never
runs, because `warmup` awaits `warm_up_terms` before `warm_up_fastfields`. -/
theorem warmup_concurrent_refuted :
    warm_up_terms searcherFailTerms queryT = Except.error "posting fetch failed" ∧
    issuedColumnPrefetches searcherFailTerms ["f"] ≠ [] ∧
    executedColumnPrefetches searcherFailTerms queryT ["f"] = [] := by
  refine ⟨rfl, ?_, rfl⟩
  show ([Except.ok [1, 2, 3]] : List (Except String Bytes)) ≠ []
  simp

/-- Claim C3 amended: the two warmup passes run sequentially, not
concurrently. The term pass is awaited to completion first; the column pass
executes its prefetches only if the term pass completed successfully, and if
the term pass fails no column prefetch is executed at all. -/
theorem warmup_passes_sequential (searcher : Searcher) (query : Query)
    (fast_field_names : List String) :
    (∀ e, warm_up_terms searcher query = Except.error e →
      executedColumnPrefetches searcher query fast_field_names = []) ∧
    (warm_up_terms searcher query = Except.ok () →
      executedColumnPrefetches searcher query fast_field_names
        = issuedColumnPrefetches searcher fast_field_names) := by
  constructor
  · intro e h
    simp [executedColumnPrefetches, h]
  · intro h
    simp [executedColumnPrefetches, h]

theorem warmup_passes_sequential_witness :
    executedColumnPrefetches searcherFailTerms queryT ["f"] = [] :=
  (warmup_passes_sequential searcherFailTerms queryT ["f"]).1
    "posting fetch failed" rfl

theorem resolve_error_of_bad (schema : Schema) (names : List String) (name : String)
    (hmem : name ∈ names)
    (hbad : schema.get_field name = none ∨
      ∃ f, schema.get_field name = some f ∧ (schema.get_field_entry f).is_fast = false) :
    ∃ e, resolve_fast_fields schema names = Except.error e := by
  induction names with
  | nil => cases hmem
  | cons h t ih =>
    rcases List.mem_cons.mp hmem with heq | hmem'
    · subst heq
      rcases hbad with hnone | ⟨f, hf, hfast⟩
      · exact ⟨msgFieldMissing name, by simp [resolve_fast_fields, hnone]⟩
      · exact ⟨msgFieldNotFast name, by simp [resolve_fast_fields, hf, hfast]⟩
    · cases hh : schema.get_field h with
      | none => exact ⟨msgFieldMissing h, by simp [resolve_fast_fields, hh]⟩
      | some f =>
        cases hfast : (schema.get_field_entry f).is_fast with
        | false => exact ⟨msgFieldNotFast h, by simp [resolve_fast_fields, hh, hfast]⟩
        | true =>
          obtain ⟨e, he⟩ := ih hmem'
          exact ⟨e, by simp [resolve_fast_fields, hh, hfast, he]⟩

theorem resolve_unique_missing (schema : Schema) (names : List String) (name : String)
    (hmem : name ∈ names) (hnone : schema.get_field name = none)
    (hgood : ∀ other ∈ names, other ≠ name →
      ∃ f, schema.get_field other = some f ∧ (schema.get_field_entry f).is_fast = true) :
    resolve_fast_fields schema names = Except.error (msgFieldMissing name) := by
  induction names with
  | nil => cases hmem
  | cons h t ih =>
    by_cases heq : h = name
    · subst heq
      simp [resolve_fast_fields, hnone]
    · obtain ⟨f, hf, hfast⟩ := hgood h (List.mem_cons_self h t) heq
      have hmem' : name ∈ t := by
        rcases List.mem_cons.mp hmem with h1 | h1
        · exact absurd h1.symm heq
        · exact h1
      have hrec := ih hmem' (fun other ho hne => hgood other (List.mem_cons_of_mem h ho) hne)
      simp [resolve_fast_fields, hf, hfast, hrec]

theorem resolve_unique_notfast (schema : Schema) (names : List String) (name : String)
    (f0 : Nat) (hmem : name ∈ names) (hf0 : schema.get_field name = some f0)
    (hslow : (schema.get_field_entry f0).is_fast = false)
    (hgood : ∀ other ∈ names, other ≠ name →
      ∃ f, schema.get_field other = some f ∧ (schema.get_field_entry f).is_fast = true) :
    resolve_fast_fields schema names = Except.error (msgFieldNotFast name) := by
  induction names with
  | nil => cases hmem
  | cons h t ih =>
    by_cases heq : h = name
    · subst heq
      simp [resolve_fast_fields, hf0, hslow]
    · obtain ⟨f, hf, hfast⟩ := hgood h (List.mem_cons_self h t) heq
      have hmem' : name ∈ t := by
        rcases List.mem_cons.mp hmem with h1 | h1
        · exact absurd h1.symm heq
        · exact h1
      have hrec := ih hmem' (fun other ho hne => hgood other (List.mem_cons_of_mem h ho) hne)
      simp [resolve_fast_fields, hf, hfast, hrec]

theorem msgFieldMissing_ne_msgFieldNotFast (name : String) :
    msgFieldMissing name ≠ msgFieldNotFast name := by
  intro h
  have hlen := congrArg String.length h
  simp [msgFieldMissing, msgFieldNotFast, String.length_append,
    show ("Couldn\x27t get field named \"" : String).length = 26 from rfl,
    show ("\" from schema." : String).length = 14 from rfl,
    show ("Field \"" : String).length = 7 from rfl,
    show ("\" is not a fast field." : String).length = 22 from rfl] at hlen
  omega

/-- Claim C5: for a requested column field name that is absent from the
schema, warmup fails (first conjunct); for a name whose field exists but is
not fast, warmup fails (second conjunct); when the remaining requested names
are valid fast fields, the error is exactly the schema error naming the
offending field, one message per failure kind (third conjunct); and the two
messages are distinct (fourth conjunct). The term pass is assumed to succeed,
since warmup runs it first. -/
theorem warmup_schema_field_errors (searcher : Searcher) (query : Query)
    (names : List String) (name : String)
    (hterms : warm_up_terms searcher query = Except.ok ())
    (hmem : name ∈ names) :
    (searcher.schema.get_field name = none →
      ∃ e, warmup searcher query names = Except.error e) ∧
    (∀ f, searcher.schema.get_field name = some f →
      (searcher.schema.get_field_entry f).is_fast = false →
      ∃ e, warmup searcher query names = Except.error e) ∧
    ((∀ other ∈ names, other ≠ name →
        ∃ f, searcher.schema.get_field other = some f ∧
          (searcher.schema.get_field_entry f).is_fast = true) →
      (searcher.schema.get_field name = none →
        warmup searcher query names = Except.error (msgFieldMissing name)) ∧
      (∀ f, searcher.schema.get_field name = some f →
        (searcher.schema.get_field_entry f).is_fast = false →
        warmup searcher query names = Except.error (msgFieldNotFast name))) ∧
    msgFieldMissing name ≠ msgFieldNotFast name := by
  have hw : warmup searcher query names = warm_up_fastfields searcher names := by
    simp [warmup, hterms]
  refine ⟨?_, ?_, ?_, msgFieldMissing_ne_msgFieldNotFast name⟩
  · intro hnone
    obtain ⟨e, he⟩ := resolve_error_of_bad searcher.schema names name hmem (Or.inl hnone)
    exact ⟨e, by simp [hw, warm_up_fastfields, he]⟩
  · intro f hf hslow
    obtain ⟨e, he⟩ :=
      resolve_error_of_bad searcher.schema names name hmem (Or.inr ⟨f, hf, hslow⟩)
    exact ⟨e, by simp [hw, warm_up_fastfields, he]⟩
  · intro hgood
    constructor
    · intro hnone
      have hres := resolve_unique_missing searcher.schema names name hmem hnone hgood
      simp [hw, warm_up_fastfields, hres]
    · intro f hf hslow
      have hres := resolve_unique_notfast searcher.schema names name f hmem hf hslow hgood
      simp [hw, warm_up_fastfields, hres]

theorem warmup_schema_field_errors_witness :
    warmup searcherOk emptyQuery ["missing"] = Except.error (msgFieldMissing "missing") :=
  ((warmup_schema_field_errors searcherOk emptyQuery ["missing"] "missing" rfl
      (List.mem_singleton.mpr rfl)).2.2.1
    (fun _ ho hne => absurd (List.mem_singleton.mp ho) hne)).1 rfl

/-- Claim C6: warmup succeeds only if every issued posting-list prefetch and
every issued column prefetch succeeds (first conjunct), and if any single
issued prefetch fails then warmup returns an error (second conjunct). -/
theorem warmup_all_prefetches (searcher : Searcher) (query : Query)
    (fast_field_names : List String) :
    (warmup searcher query fast_field_names = Except.ok () →
      (∀ r ∈ issuedTermPrefetches searcher query, r = Except.ok ()) ∧
      (∀ r ∈ issuedColumnPrefetches searcher fast_field_names, ∃ b, r = Except.ok b)) ∧
    (((∃ r ∈ issuedTermPrefetches searcher query, ∃ e, r = Except.error e) ∨
      (∃ r ∈ issuedColumnPrefetches searcher fast_field_names, ∃ e, r = Except.error e)) →
      ∃ e, warmup searcher query fast_field_names = Except.error e) := by
  constructor
  · intro hok
    have hterms : warm_up_terms searcher query = Except.ok () := by
      cases h : warm_up_terms searcher query with
      | error e => simp [warmup, h] at hok
      | ok u => cases u; rfl
    have hff : warm_up_fastfields searcher fast_field_names = Except.ok () := by
      simp [warmup, hterms] at hok
      exact hok
    constructor
    · intro r hr
      cases htf : termFutures searcher.segment_readers (groupByField query.terms) with
      | error e => simp [issuedTermPrefetches, htf] at hr
      | ok futs =>
        have hjoin : ∃ l, tryJoinAll futs = Except.ok l := by
          cases hj : tryJoinAll futs with
          | error e => simp [warm_up_terms, htf, hj] at hterms
          | ok l => exact ⟨l, rfl⟩
        have hr' : r ∈ futs := by simpa [issuedTermPrefetches, htf] using hr
        obtain ⟨a, ha⟩ := (tryJoinAll_ok_iff futs).mp hjoin r hr'
        cases a
        exact ha
    · intro r hr
      cases hrf : resolve_fast_fields searcher.schema fast_field_names with
      | error e => simp [issuedColumnPrefetches, hrf] at hr
      | ok fields =>
        cases hcf : columnFutures searcher fields with
        | error e => simp [issuedColumnPrefetches, hrf, hcf] at hr
        | ok futs =>
          have hjoin : ∃ l, tryJoinAll futs = Except.ok l := by
            cases hj : tryJoinAll futs with
            | error e => simp [warm_up_fastfields, hrf, hcf, hj] at hff
            | ok l => exact ⟨l, rfl⟩
          have hr' : r ∈ futs := by simpa [issuedColumnPrefetches, hrf, hcf] using hr
          exact (tryJoinAll_ok_iff futs).mp hjoin r hr'
  · rintro (⟨r, hr, e, he⟩ | ⟨r, hr, e, he⟩)
    · cases htf : termFutures searcher.segment_readers (groupByField query.terms) with
      | error e2 => simp [issuedTermPrefetches, htf] at hr
      | ok futs =>
        have hr' : r ∈ futs := by simpa [issuedTermPrefetches, htf] using hr
        obtain ⟨e2, hj⟩ := tryJoinAll_error_of_mem futs r hr' e he
        exact ⟨e2, by simp [warmup, warm_up_terms, htf, hj]⟩
    · cases hrf : resolve_fast_fields searcher.schema fast_field_names with
      | error e2 => simp [issuedColumnPrefetches, hrf] at hr
      | ok fields =>
        cases hcf : columnFutures searcher fields with
        | error e2 => simp [issuedColumnPrefetches, hrf, hcf] at hr
        | ok futs =>
          have hr' : r ∈ futs := by simpa [issuedColumnPrefetches, hrf, hcf] using hr
          obtain ⟨e2, hj⟩ := tryJoinAll_error_of_mem futs r hr' e he
          have hff : warm_up_fastfields searcher fast_field_names = Except.error e2 := by
            simp [warm_up_fastfields, hrf, hcf, hj]
          cases ht : warm_up_terms searcher query with
          | error e3 => exact ⟨e3, by simp [warmup, ht]⟩
          | ok u => exact ⟨e2, by cases u; simp [warmup, ht, hff]⟩

theorem warmup_all_prefetches_witness :
    (∀ r ∈ issuedTermPrefetches searcherOk queryT, r = Except.ok ()) ∧
    (∀ r ∈ issuedColumnPrefetches searcherOk ["f"], ∃ b, r = Except.ok b) :=
  (warmup_all_prefetches searcherOk queryT ["f"]).1 rfl

/-- Claim C7: if the CPU-bound search execution for a split panics (and the
execution was reached), `leaf_search_single_split` returns
`SearchError::InternalError` with a message containing that split's id. -/
theorem leaf_search_single_split_panic (search_request : SearchRequest)
    (env : SplitExecEnv) (split : SplitIdAndFooterOffsets) (index_config : IndexConfig)
    (hpanic : env.search_outcome = SearchOutcome.panicked)
    (hreach : Event.execStart ∈ execTrace search_request env split index_config) :
    (leaf_search_single_split search_request env split index_config).1
      = Except.error (SearchError.internalError
          ("Leaf search panicked. split=" ++ split.split_id)) ∧
    ∃ p, "Leaf search panicked. split=" ++ split.split_id = p ++ split.split_id := by
  refine ⟨?_, "Leaf search panicked. split=", rfl⟩
  cases ho : env.open_result with
  | error e => simp [execTrace, leaf_search_single_split, ho] at hreach
  | ok index =>
    cases hq : index_config.query index.schema search_request with
    | error e => simp [execTrace, leaf_search_single_split, ho, hq] at hreach
    | ok query =>
      cases hr : env.reader_result index with
      | error e => simp [execTrace, leaf_search_single_split, ho, hq, hr] at hreach
      | ok searcher =>
        cases hw : warmup searcher query
            (env.make_collector split.split_id search_request index.schema).fast_field_names with
        | error e => simp [execTrace, leaf_search_single_split, ho, hq, hr, hw] at hreach
        | ok u =>
          cases u
          simp [leaf_search_single_split, ho, hq, hr, hw, hpanic]

theorem leaf_search_single_split_panic_witness :
    (leaf_search_single_split requestC envPanic split1 cfgC).1
        = Except.error (SearchError.internalError
            ("Leaf search panicked. split=" ++ split1.split_id)) ∧
      ∃ p, "Leaf search panicked. split=" ++ split1.split_id = p ++ split1.split_id :=
  leaf_search_single_split_panic requestC envPanic split1 cfgC rfl (by decide)

/-- Claim C8: on every execution path, the memory reservation is acquired
exactly once and before anything else (in particular before the index is
opened), released exactly once, held through warmup (when warmup completes,
the release comes after it), and released before the CPU-bound execution
starts (which is only reached after warmup completed). -/
theorem leaf_search_single_split_reservation (search_request : SearchRequest)
    (env : SplitExecEnv) (split : SplitIdAndFooterOffsets) (index_config : IndexConfig) :
    (execTrace search_request env split index_config).count Event.acquireReservation = 1 ∧
    (execTrace search_request env split index_config).count Event.releaseReservation = 1 ∧
    (execTrace search_request env split index_config).head?
      = some Event.acquireReservation ∧
    (Event.warmupDone ∈ execTrace search_request env split index_config →
      (execTrace search_request env split index_config).indexOf Event.warmupDone
        < (execTrace search_request env split index_config).indexOf
            Event.releaseReservation) ∧
    (Event.execStart ∈ execTrace search_request env split index_config →
      Event.warmupDone ∈ execTrace search_request env split index_config ∧
      (execTrace search_request env split index_config).indexOf Event.releaseReservation
        < (execTrace search_request env split index_config).indexOf Event.execStart) := by
  cases ho : env.open_result with
  | error e =>
    have ht : execTrace search_request env split index_config
        = [Event.acquireReservation, Event.releaseReservation] := by
      simp [execTrace, leaf_search_single_split, ho]
    rw [ht]
    decide
  | ok index =>
    cases hq : index_config.query index.schema search_request with
    | error e =>
      have ht : execTrace search_request env split index_config
          = [Event.acquireReservation, Event.openIndexDone, Event.releaseReservation] := by
        simp [execTrace, leaf_search_single_split, ho, hq]
      rw [ht]
      decide
    | ok query =>
      cases hr : env.reader_result index with
      | error e =>
        have ht : execTrace search_request env split index_config
            = [Event.acquireReservation, Event.openIndexDone, Event.releaseReservation] := by
          simp [execTrace, leaf_search_single_split, ho, hq, hr]
        rw [ht]
        decide
      | ok searcher =>
        cases hw : warmup searcher query
            (env.make_collector split.split_id search_request index.schema).fast_field_names with
        | error e =>
          have ht : execTrace search_request env split index_config
              = [Event.acquireReservation, Event.openIndexDone,
                  Event.releaseReservation] := by
            simp [execTrace, leaf_search_single_split, ho, hq, hr, hw]
          rw [ht]
          decide
        | ok u =>
          cases u
          have ht : execTrace search_request env split index_config
              = [Event.acquireReservation, Event.openIndexDone, Event.warmupDone,
                  Event.releaseReservation, Event.execStart] := by
            cases hs : env.search_outcome with
            | panicked => simp [execTrace, leaf_search_single_split, ho, hq, hr, hw, hs]
            | finished r =>
              cases r <;> simp [execTrace, leaf_search_single_split, ho, hq, hr, hw, hs]
          rw [ht]
          decide

theorem leaf_search_single_split_reservation_witness :
    Event.warmupDone ∈ execTrace requestC envOkA split1 cfgC ∧
    (execTrace requestC envOkA split1 cfgC).indexOf Event.warmupDone
      < (execTrace requestC envOkA split1 cfgC).indexOf Event.releaseReservation :=
  ⟨by decide,
    (leaf_search_single_split_reservation requestC envOkA split1 cfgC).2.2.2.1 (by decide)⟩

theorem leaf_search_unfold (request : SearchRequest)
    (envs : SplitIdAndFooterOffsets → SplitExecEnv)
    (splits : List SplitIdAndFooterOffsets) (index_config : IndexConfig)
    (merge_fruits : List LeafSearchResponse → MergeOutcome) :
    leaf_search request envs splits index_config merge_fruits
      = match merge_fruits (leafSuccesses request envs splits index_config) with
        | MergeOutcome.panicked =>
          Except.error (SearchError.fromError "Failed to merge split search responses.")
        | MergeOutcome.finished (Except.error e) => Except.error (SearchError.fromError e)
        | MergeOutcome.finished (Except.ok merged) =>
          Except.ok { merged with failed_splits := merged.failed_splits
            ++ (leafFailures request envs splits index_config).map (fun pr =>
                ⟨pr.1, SearchError.debugString pr.2, true⟩) } := by
  have hS : (splits.map (fun split =>
      match (leaf_search_single_split request (envs split) split index_config).1 with
      | Except.ok split_search_resp => Sum.inl split_search_resp
      | Except.error err => Sum.inr (split.split_id, err))).filterMap
        (fun r => match r with
          | Sum.inl resp => some resp
          | Sum.inr _ => none)
      = leafSuccesses request envs splits index_config := by
    rw [List.filterMap_map]
    simp only [leafSuccesses]
    apply List.filterMap_congr
    intro s _
    simp only [Function.comp]
    cases (leaf_search_single_split request (envs s) s index_config).1 <;> rfl
  have hF : (splits.map (fun split =>
      match (leaf_search_single_split request (envs split) split index_config).1 with
      | Except.ok split_search_resp => Sum.inl split_search_resp
      | Except.error err => Sum.inr (split.split_id, err))).filterMap
        (fun r => match r with
          | Sum.inl _ => none
          | Sum.inr pr => some pr)
      = leafFailures request envs splits index_config := by
    rw [List.filterMap_map]
    simp only [leafFailures]
    apply List.filterMap_congr
    intro s _
    simp only [Function.comp]
    cases (leaf_search_single_split request (envs s) s index_config).1 <;> rfl
  simp only [leaf_search, hS, hF]

theorem leafSuccesses_length_add (request : SearchRequest)
    (envs : SplitIdAndFooterOffsets → SplitExecEnv)
    (splits : List SplitIdAndFooterOffsets) (index_config : IndexConfig) :
    (leafSuccesses request envs splits index_config).length
      + (leafFailures request envs splits index_config).length = splits.length := by
  induction splits with
  | nil => rfl
  | cons s t ih =>
    simp only [leafSuccesses, leafFailures, List.filterMap_cons] at *
    cases h : (leaf_search_single_split request (envs s) s index_config).1 with
    | ok resp =>
      simp only [h, List.length_cons]
      omega
    | error err =>
      simp only [h, List.length_cons]
      omega

/-- Claim C1: when the merge step succeeds (on exactly the successful partial
results, which is what `leaf_search` feeds it) and contributes no failures of
its own, `leaf_search` returns a response carrying the merged payload whose
`failed_splits` list has exactly one entry per failed split, in order,
carrying that split's id, each with `retryable_error = true`; successes and
failures partition the N requested splits. -/
theorem leaf_search_partial_failure (request : SearchRequest)
    (envs : SplitIdAndFooterOffsets → SplitExecEnv)
    (splits : List SplitIdAndFooterOffsets) (index_config : IndexConfig)
    (merge_fruits : List LeafSearchResponse → MergeOutcome)
    (merged : LeafSearchResponse)
    (hmerge : merge_fruits (leafSuccesses request envs splits index_config)
      = MergeOutcome.finished (Except.ok merged))
    (hclean : merged.failed_splits = []) :
    ∃ r, leaf_search request envs splits index_config merge_fruits = Except.ok r ∧
      r.num_hits = merged.num_hits ∧
      r.failed_splits.length = (leafFailures request envs splits index_config).length ∧
      (leafSuccesses request envs splits index_config).length
          + (leafFailures request envs splits index_config).length = splits.length ∧
      (∀ fs ∈ r.failed_splits, fs.retryable_error = true) ∧
      r.failed_splits.map (fun fs => fs.split_id)
        = (leafFailures request envs splits index_config).map (fun pr => pr.1) := by
  have hu := leaf_search_unfold request envs splits index_config merge_fruits
  rw [hmerge] at hu
  refine ⟨_, hu, rfl, ?_, leafSuccesses_length_add request envs splits index_config,
    ?_, ?_⟩
  · simp [hclean]
  · intro fs hfs
    rw [hclean] at hfs
    simp only [List.nil_append] at hfs
    rcases List.mem_map.mp hfs with ⟨pr, _, rfl⟩
    rfl
  · simp [hclean, List.map_map]

theorem leaf_search_partial_failure_witness :
    ∃ r, leaf_search requestC envsC [split1, split2, split3] cfgC mergeSum
        = Except.ok r ∧
      r.num_hits = (⟨8, []⟩ : LeafSearchResponse).num_hits ∧
      r.failed_splits.length
          = (leafFailures requestC envsC [split1, split2, split3] cfgC).length ∧
      (leafSuccesses requestC envsC [split1, split2, split3] cfgC).length
          + (leafFailures requestC envsC [split1, split2, split3] cfgC).length
          = ([split1, split2, split3] : List SplitIdAndFooterOffsets).length ∧
      (∀ fs ∈ r.failed_splits, fs.retryable_error = true) ∧
      r.failed_splits.map (fun fs => fs.split_id)
        = (leafFailures requestC envsC [split1, split2, split3] cfgC).map
            (fun pr => pr.1) :=
  leaf_search_partial_failure requestC envsC [split1, split2, split3] cfgC mergeSum
    ⟨8, []⟩ rfl rfl

/-- Claim C2: `leaf_search` fails only when the merge step itself panics or
errors. Whenever the merge step succeeds, the call returns Ok no matter how
many split executions failed, and every failed split is recorded by id in the
returned failure list. -/
theorem leaf_search_error_only_on_merge (request : SearchRequest)
    (envs : SplitIdAndFooterOffsets → SplitExecEnv)
    (splits : List SplitIdAndFooterOffsets) (index_config : IndexConfig)
    (merge_fruits : List LeafSearchResponse → MergeOutcome) :
    (∀ merged, merge_fruits (leafSuccesses request envs splits index_config)
        = MergeOutcome.finished (Except.ok merged) →
      ∃ r, leaf_search request envs splits index_config merge_fruits = Except.ok r ∧
        ∀ pr ∈ leafFailures request envs splits index_config,
          pr.1 ∈ r.failed_splits.map (fun fs => fs.split_id)) ∧
    (∀ e, leaf_search request envs splits index_config merge_fruits
        = Except.error e →
      merge_fruits (leafSuccesses request envs splits index_config)
          = MergeOutcome.panicked ∨
        ∃ me, merge_fruits (leafSuccesses request envs splits index_config)
          = MergeOutcome.finished (Except.error me)) := by
  have hu := leaf_search_unfold request envs splits index_config merge_fruits
  constructor
  · intro merged hmerge
    rw [hmerge] at hu
    refine ⟨_, hu, ?_⟩
    intro pr hpr
    simp only [List.map_append, List.map_map]
    apply List.mem_append.mpr
    exact Or.inr (List.mem_map.mpr ⟨pr, hpr, rfl⟩)
  · intro e he
    cases hm : merge_fruits (leafSuccesses request envs splits index_config) with
    | panicked => exact Or.inl rfl
    | finished r =>
      cases r with
      | error me => exact Or.inr ⟨me, rfl⟩
      | ok merged =>
        rw [hm] at hu
        rw [hu] at he
        cases he

theorem leaf_search_error_only_on_merge_witness :
    ∃ r, leaf_search requestC envsC [split1, split3] cfgC mergeSum = Except.ok r ∧
      ∀ pr ∈ leafFailures requestC envsC [split1, split3] cfgC,
        pr.1 ∈ r.failed_splits.map (fun fs => fs.split_id) :=
  (leaf_search_error_only_on_merge requestC envsC [split1, split3] cfgC mergeSum).1
    ⟨5, []⟩ rfl

end QuickwitLeaf
